import Mathlib

/-!
Shallow embedding of the consensus-constant core of the wakiyamap/rust-bitcoin
fork (Monacoin): the per-network parameter table (`src/consensus/params.rs`)
and the genesis-block construction module (`src/blockdata/constants.rs`).

Machine integers are modelled as `Nat`, with explicit `% 2 ^ w` truncation
where the Rust fixed-width semantics can overflow.  The 256-bit `Uint256`
type (four little-endian 64-bit limbs in the source) is modelled by its
numeric value, constructed limb-wise to mirror the source literals.
-/

namespace RustBitcoin

/-- The `Network` enumeration (`network::constants::Network`): the three
supported chains of this fork. -/
inductive Network where
  | Monacoin
  | MonacoinTestnet
  | MonacoinRegtest
deriving DecidableEq, Repr

/-- Value of a `Uint256([l0, l1, l2, l3])` literal: limb 0 is least
significant, each limb is a 64-bit word. -/
def uint256OfLimbs (l0 l1 l2 l3 : Nat) : Nat :=
  l0 + l1 * 2 ^ 64 + l2 * 2 ^ 128 + l3 * 2 ^ 192

/-- `Uint256::from_u64(v)` for `v` a 64-bit value (always `Some` in the
source; the `unwrap` never fails), followed by nothing: just the value. -/
def uint256FromU64 (v : Nat) : Nat := v % 2 ^ 64

/-- Fixed-width left shift of a `Uint256`: shifting out high bits
truncates. -/
def uint256Shl (x k : Nat) : Nat := (x <<< k) % 2 ^ 256

/-- `MAX_BITS_BITCOIN` from `consensus/params.rs`. -/
def MAX_BITS_BITCOIN : Nat :=
  uint256OfLimbs 0xffffffffffffffff 0xffffffffffffffff 0xffffffffffffffff
    0x00000fffffffffff

/-- `MAX_BITS_TESTNET` from `consensus/params.rs`. -/
def MAX_BITS_TESTNET : Nat :=
  uint256OfLimbs 0xffffffffffffffff 0xffffffffffffffff 0xffffffffffffffff
    0x00000fffffffffff

/-- `MAX_BITS_REGTEST` from `consensus/params.rs`. -/
def MAX_BITS_REGTEST : Nat :=
  uint256OfLimbs 0x0000000000000000 0x0000000000000000 0x0000000000000000
    0x7fffff0000000000

/-- The `Params` struct of `consensus/params.rs`: parameters that influence
chain consensus. -/
structure Params where
  network : Network
  bip16_time : Nat
  bip34_height : Nat
  bip65_height : Nat
  bip66_height : Nat
  rule_change_activation_threshold : Nat
  miner_confirmation_window : Nat
  pow_limit : Nat
  pow_target_spacing : Nat
  pow_target_timespan : Nat
  allow_min_difficulty_blocks : Bool
  no_pow_retargeting : Bool
  switch_lyra2rev2_dgwblock : Nat
deriving DecidableEq, Repr

/-- `Params::new(network)`: creates the parameter set for the given
network, one fixed record per variant, exhaustive over `Network`. -/
def Params.new (network : Network) : Params :=
  match network with
  | Network.Monacoin =>
      { network := Network.Monacoin
        bip16_time := 0
        bip34_height := 0
        bip65_height := 977759
        bip66_height := 977759
        rule_change_activation_threshold := 7560
        miner_confirmation_window := 10080
        pow_limit := MAX_BITS_BITCOIN
        pow_target_spacing := 90
        pow_target_timespan := 95040
        allow_min_difficulty_blocks := false
        no_pow_retargeting := false
        switch_lyra2rev2_dgwblock := 450000 }
  | Network.MonacoinTestnet =>
      { network := Network.MonacoinTestnet
        bip16_time := 0
        bip34_height := 0
        bip65_height := 100000000
        bip66_height := 100000000
        rule_change_activation_threshold := 75
        miner_confirmation_window := 100
        pow_limit := MAX_BITS_TESTNET
        pow_target_spacing := 90
        pow_target_timespan := 95040
        allow_min_difficulty_blocks := true
        no_pow_retargeting := false
        switch_lyra2rev2_dgwblock := 60 }
  | Network.MonacoinRegtest =>
      { network := Network.MonacoinRegtest
        bip16_time := 0
        bip34_height := 100000000
        bip65_height := 100000000
        bip66_height := 100000000
        rule_change_activation_threshold := 108
        miner_confirmation_window := 144
        pow_limit := MAX_BITS_REGTEST
        pow_target_spacing := 90
        pow_target_timespan := 95040
        allow_min_difficulty_blocks := true
        no_pow_retargeting := true
        switch_lyra2rev2_dgwblock := 30 }

/-- `Params::difficulty_adjustment_interval`: `pow_target_timespan /
pow_target_spacing`, truncating `u64` division. -/
def Params.difficulty_adjustment_interval (p : Params) : Nat :=
  p.pow_target_timespan / p.pow_target_spacing

/-- `MAX_SEQUENCE` from `blockdata/constants.rs`. -/
def MAX_SEQUENCE : Nat := 0xFFFFFFFF

/-- `COIN_VALUE` from `blockdata/constants.rs`. -/
def COIN_VALUE : Nat := 100000000

/-- `DIFFCHANGE_INTERVAL` from `blockdata/constants.rs`. -/
def DIFFCHANGE_INTERVAL : Nat := 2016

/-- `max_target(_: Network)`: `Uint256::from_u64(0xFFFF).unwrap() << 208`,
ignoring the network argument. -/
def max_target (_ : Network) : Nat :=
  uint256Shl (uint256FromU64 0xFFFF) 208

/-- `max_money(_: Network)`: `105_120_000 * COIN_VALUE`, ignoring the
network argument (the product fits in `u64`, so no truncation occurs). -/
def max_money (_ : Network) : Nat :=
  105120000 * COIN_VALUE

/-- Modelled from the spec: the compact-bits decode rule of the spec's
CompactBits data model (the decoder itself, `BlockHeader::target` in the
wider library, is not among the provided sources).  Top byte is the
exponent, lower three bytes the mantissa; a mantissa with its top (sign)
bit set decodes to zero; `exponent > 3` shifts the mantissa left by
`8 * (exponent - 3)` bits (truncated to 256 bits), `exponent <= 3` shifts
it right by `8 * (3 - exponent)` bits. -/
def compactDecode (bits : Nat) : Nat :=
  let exponent := (bits >>> 24) % 2 ^ 8
  let mantissa := bits % 2 ^ 24
  if mantissa &&& 0x800000 ≠ 0 then 0
  else if 3 < exponent then (mantissa <<< (8 * (exponent - 3))) % 2 ^ 256
  else mantissa >>> (8 * (3 - exponent))

/-! ### Byte-level primitives

Bytes are `Nat` values below 256; byte strings are `List Nat`. -/

/-- The four bytes of a 32-bit value, least significant first. -/
def u32LEBytes (n : Nat) : List Nat :=
  [n % 256, (n >>> 8) % 256, (n >>> 16) % 256, (n >>> 24) % 256]

/-- The eight bytes of a 64-bit value, least significant first. -/
def u64LEBytes (n : Nat) : List Nat :=
  [n % 256, (n >>> 8) % 256, (n >>> 16) % 256, (n >>> 24) % 256,
   (n >>> 32) % 256, (n >>> 40) % 256, (n >>> 48) % 256, (n >>> 56) % 256]

/-- The eight bytes of a 64-bit value, most significant first. -/
def u64BEBytes (n : Nat) : List Nat :=
  [(n >>> 56) % 256, (n >>> 48) % 256, (n >>> 40) % 256, (n >>> 32) % 256,
   (n >>> 24) % 256, (n >>> 16) % 256, (n >>> 8) % 256, n % 256]

/-- Bitcoin variable-length integer (CompactSize) encoding. -/
def varintBytes (n : Nat) : List Nat :=
  if n < 0xfd then [n]
  else if n < 2 ^ 16 then 0xfd :: [n % 256, (n >>> 8) % 256]
  else if n < 2 ^ 32 then 0xfe :: u32LEBytes n
  else 0xff :: u64LEBytes n

/-! ### Script builder

Modelled from the spec: the consumed transaction/script builder "capable of
producing a signature-script from push-data primitives (integer push,
byte-slice push) and a raw opcode" (`blockdata::script::Builder` is not
among the provided sources).  The encodings are the standard Bitcoin script
push encodings, pinned by the serialized-script literals in the source's
test module. -/

/-- Little-endian bytes of a nonnegative value, no fixed width, with a fuel
bound on the byte count (9 suffices for any 64-bit integer). -/
def leBytes : Nat → Nat → List Nat
  | 0, _ => []
  | fuel + 1, n => if n = 0 then [] else n % 256 :: leBytes fuel (n >>> 8)

/-- Script-integer encoding of a nonnegative value: minimal little-endian
bytes, with a trailing zero byte when the top byte would read as a sign
bit. -/
def scriptintBytes (n : Nat) : List Nat :=
  let b := leBytes 9 n
  match b.getLast? with
  | none => []
  | some t => if 0x80 ≤ t then b ++ [0x00] else b

/-- Script data-push encoding: length prefix (direct, OP_PUSHDATA1,
OP_PUSHDATA2 or OP_PUSHDATA4) followed by the data. -/
def pushSliceEncoding (data : List Nat) : List Nat :=
  let l := data.length
  if l < 0x4c then l :: data
  else if l < 2 ^ 8 then 0x4c :: l :: data
  else if l < 2 ^ 16 then 0x4d :: (l % 256) :: ((l >>> 8) % 256) :: data
  else 0x4e :: (u32LEBytes l ++ data)

/-- `OP_CHECKSIG` opcode byte. -/
def OP_CHECKSIG : Nat := 0xac

/-- Script builder accumulating raw script bytes. -/
structure Builder where
  bytes : List Nat
deriving DecidableEq, Repr

/-- `script::Builder::new()`. -/
def Builder.mkNew : Builder := ⟨[]⟩

/-- `Builder::push_scriptint`. -/
def Builder.push_scriptint (b : Builder) (n : Nat) : Builder :=
  ⟨b.bytes ++ pushSliceEncoding (scriptintBytes n)⟩

/-- `Builder::push_slice`. -/
def Builder.push_slice (b : Builder) (data : List Nat) : Builder :=
  ⟨b.bytes ++ pushSliceEncoding data⟩

/-- `Builder::push_opcode`. -/
def Builder.push_opcode (b : Builder) (op : Nat) : Builder :=
  ⟨b.bytes ++ [op]⟩

/-- `Builder::into_script`: the accumulated raw script bytes. -/
def Builder.into_script (b : Builder) : List Nat := b.bytes

/-! ### Transaction and block data model

The collaborator structures from `blockdata::transaction` and
`blockdata::block`, with hashes and scripts as byte lists. -/

/-- `OutPoint`: a reference to a transaction output. -/
structure OutPoint where
  txid : List Nat
  vout : Nat
deriving DecidableEq, Repr

/-- `OutPoint::null()`: all-zero txid and maximum vout, as pinned by the
source's test module (`previous_output.txid == Default::default()`,
`previous_output.vout == 0xFFFFFFFF`). -/
def OutPoint.null : OutPoint :=
  { txid := List.replicate 32 0, vout := 0xFFFFFFFF }

/-- `TxIn`: a transaction input. -/
structure TxIn where
  previous_output : OutPoint
  script_sig : List Nat
  sequence : Nat
  witness : List (List Nat)
deriving DecidableEq, Repr

/-- `TxOut`: a transaction output. -/
structure TxOut where
  value : Nat
  script_pubkey : List Nat
deriving DecidableEq, Repr

/-- `Transaction`. -/
structure Transaction where
  version : Nat
  lock_time : Nat
  input : List TxIn
  output : List TxOut
deriving DecidableEq, Repr

/-- `BlockHeader`: version, previous block hash, merkle root, time, compact
bits, nonce. -/
structure BlockHeader where
  version : Nat
  prev_blockhash : List Nat
  merkle_root : List Nat
  time : Nat
  bits : Nat
  nonce : Nat
deriving DecidableEq, Repr

/-- `Block`: a header together with its transactions. -/
structure Block where
  header : BlockHeader
  txdata : List Transaction
deriving DecidableEq, Repr

/-! ### Consensus serialization

Modelled from the spec: the consumed "deterministic byte-serializer" for
transactions and headers (`consensus::encode` is not among the provided
sources).  This is the legacy (non-witness) Bitcoin wire encoding, which is
what applies here since the genesis transaction carries no witness data;
the serialized-script byte literals in the source's test module pin the
script part. -/

/-- Serialization of a script: CompactSize length prefix, then bytes. -/
def serializeScript (s : List Nat) : List Nat :=
  varintBytes s.length ++ s

/-- Serialization of a transaction input. -/
def serializeTxIn (i : TxIn) : List Nat :=
  i.previous_output.txid ++ u32LEBytes i.previous_output.vout ++
    serializeScript i.script_sig ++ u32LEBytes i.sequence

/-- Serialization of a transaction output. -/
def serializeTxOut (o : TxOut) : List Nat :=
  u64LEBytes o.value ++ serializeScript o.script_pubkey

/-- Legacy serialization of a transaction. -/
def serializeTx (t : Transaction) : List Nat :=
  u32LEBytes t.version ++
    varintBytes t.input.length ++ (t.input.map serializeTxIn).flatten ++
    varintBytes t.output.length ++ (t.output.map serializeTxOut).flatten ++
    u32LEBytes t.lock_time

/-- Serialization of a block header (80 bytes). -/
def serializeHeader (h : BlockHeader) : List Nat :=
  u32LEBytes h.version ++ h.prev_blockhash ++ h.merkle_root ++
    u32LEBytes h.time ++ u32LEBytes h.bits ++ u32LEBytes h.nonce

/-! ### SHA-256 and the double-hash primitive

Modelled from the spec: the consumed "256-bit double-hash primitive"
(`hashes::sha256d`, not among the provided sources) is two rounds of
standard FIPS 180-4 SHA-256, implemented here over byte lists. -/

/-- 32-bit right rotation. -/
def rotr32 (x n : Nat) : Nat := ((x >>> n) ||| (x <<< (32 - n))) % 2 ^ 32

/-- 32-bit modular addition. -/
def add32 (a b : Nat) : Nat := (a + b) % 2 ^ 32

/-- SHA-256 choice function. -/
def sha2Ch (x y z : Nat) : Nat := (x &&& y) ^^^ ((x ^^^ 0xffffffff) &&& z)

/-- SHA-256 majority function. -/
def sha2Maj (x y z : Nat) : Nat := (x &&& y) ^^^ (x &&& z) ^^^ (y &&& z)

/-- SHA-256 big sigma 0. -/
def bigSigma0 (x : Nat) : Nat := rotr32 x 2 ^^^ rotr32 x 13 ^^^ rotr32 x 22

/-- SHA-256 big sigma 1. -/
def bigSigma1 (x : Nat) : Nat := rotr32 x 6 ^^^ rotr32 x 11 ^^^ rotr32 x 25

/-- SHA-256 small sigma 0. -/
def smallSigma0 (x : Nat) : Nat := rotr32 x 7 ^^^ rotr32 x 18 ^^^ (x >>> 3)

/-- SHA-256 small sigma 1. -/
def smallSigma1 (x : Nat) : Nat := rotr32 x 17 ^^^ rotr32 x 19 ^^^ (x >>> 10)

/-- The 64 SHA-256 round constants (FIPS 180-4 section 4.2.2), packed
big-endian, first constant `0x428a2f98` in the most significant 32 bits,
last constant `0xc67178f2` in the least significant. -/
def sha256KPacked : Nat :=
  0x428a2f9871374491b5c0fbcfe9b5dba53956c25b59f111f1923f82a4ab1c5ed5d807aa9812835b01243185be550c7dc372be5d7480deb1fe9bdc06a7c19bf174e49b69c1efbe47860fc19dc6240ca1cc2de92c6f4a7484aa5cb0a9dc76f988da983e5152a831c66db00327c8bf597fc7c6e00bf3d5a7914706ca63511429296727b70a852e1b21384d2c6dfc53380d13650a7354766a0abb81c2c92e92722c85a2bfe8a1a81a664bc24b8b70c76c51a3d192e819d6990624f40e3585106aa07019a4c1161e376c082748774c34b0bcb5391c0cb34ed8aa4a5b9cca4f682e6ff3748f82ee78a5636f84c878148cc7020890befffaa4506cebbef9a3f7c67178f2

/-- The 64 SHA-256 round constants in order, unpacked. -/
def sha256K : List Nat :=
  (List.range 64).map fun i => (sha256KPacked >>> (32 * (63 - i))) % 2 ^ 32

/-- SHA-256 working state: eight 32-bit words. -/
structure Sha256State where
  a : Nat
  b : Nat
  c : Nat
  d : Nat
  e : Nat
  f : Nat
  g : Nat
  h : Nat
deriving DecidableEq, Repr

/-- SHA-256 initial hash value. -/
def sha256Init : Sha256State :=
  { a := 0x6a09e667, b := 0xbb67ae85, c := 0x3c6ef372, d := 0xa54ff53a,
    e := 0x510e527f, f := 0x9b05688c, g := 0x1f83d9ab, h := 0x5be0cd19 }

/-- One step of the message-schedule extension.  The argument lists the
already-computed schedule words most recent first; the new word is
`smallSigma1 w(t-2) + w(t-7) + smallSigma0 w(t-15) + w(t-16)`. -/
def scheduleStep (w : List Nat) : Nat :=
  match w with
  | _ :: y2 :: _ :: _ :: _ :: _ :: y7 :: _ :: _ :: _ :: _ :: _ :: _ :: _ ::
      y15 :: y16 :: _ =>
      add32 (add32 (smallSigma1 y2) y7) (add32 (smallSigma0 y15) y16)
  | _ => 0

/-- Extend the (reversed) message schedule by the given number of words. -/
def extendSchedule : Nat → List Nat → List Nat
  | 0, acc => acc
  | n + 1, acc => extendSchedule n (scheduleStep acc :: acc)

/-- One SHA-256 round: `kw` is the round constant already added to the
schedule word. -/
def sha256Round (s : Sha256State) (kw : Nat) : Sha256State :=
  let t1 := add32 s.h (add32 (bigSigma1 s.e) (add32 (sha2Ch s.e s.f s.g) kw))
  let t2 := add32 (bigSigma0 s.a) (sha2Maj s.a s.b s.c)
  { a := add32 t1 t2, b := s.a, c := s.b, d := s.c,
    e := add32 s.d t1, f := s.e, g := s.f, h := s.g }

/-- SHA-256 compression of one 16-word block into the running state. -/
def sha256Compress (s : Sha256State) (block : List Nat) : Sha256State :=
  let w := (extendSchedule 48 block.reverse).reverse
  let kw := List.zipWith add32 sha256K w
  let t := List.foldl sha256Round s kw
  { a := add32 s.a t.a, b := add32 s.b t.b, c := add32 s.c t.c,
    d := add32 s.d t.d, e := add32 s.e t.e, f := add32 s.f t.f,
    g := add32 s.g t.g, h := add32 s.h t.h }

/-- Group bytes into big-endian 32-bit words (input length a multiple
of 4). -/
def bytesToWords : List Nat → List Nat
  | b0 :: b1 :: b2 :: b3 :: rest =>
      ((b0 <<< 24) ||| (b1 <<< 16) ||| (b2 <<< 8) ||| b3) :: bytesToWords rest
  | _ => []

/-- Group words into 16-word blocks (input length a multiple of 16). -/
def wordsToBlocks : List Nat → List (List Nat)
  | w0 :: w1 :: w2 :: w3 :: w4 :: w5 :: w6 :: w7 :: w8 :: w9 :: w10 :: w11 ::
      w12 :: w13 :: w14 :: w15 :: rest =>
      [w0, w1, w2, w3, w4, w5, w6, w7, w8, w9, w10, w11, w12, w13, w14, w15]
        :: wordsToBlocks rest
  | _ => []

/-- SHA-256 padding: append `0x80`, zero bytes up to 56 mod 64, then the
bit length as a 64-bit big-endian integer. -/
def sha256Pad (msg : List Nat) : List Nat :=
  let len := msg.length
  let padZeros := (55 + 64 - len % 64) % 64
  msg ++ 0x80 :: (List.replicate padZeros 0 ++ u64BEBytes (8 * len))

/-- The four big-endian bytes of a 32-bit word. -/
def wordBEBytes (w : Nat) : List Nat :=
  [(w >>> 24) % 256, (w >>> 16) % 256, (w >>> 8) % 256, w % 256]

/-- SHA-256 of a byte string, as 32 bytes. -/
def sha256 (msg : List Nat) : List Nat :=
  let blocks := wordsToBlocks (bytesToWords (sha256Pad msg))
  let s := List.foldl sha256Compress sha256Init blocks
  (([s.a, s.b, s.c, s.d, s.e, s.f, s.g, s.h].map wordBEBytes)).flatten

/-- The double-hash primitive `sha256d`: SHA-256 applied twice. -/
def sha256d (msg : List Nat) : List Nat := sha256 (sha256 msg)

/-- `Transaction::txid()`: the double hash of the legacy serialization. -/
def Transaction.txid (t : Transaction) : List Nat := sha256d (serializeTx t)

/-- `BlockHeader::block_hash()`: the double hash of the header
serialization (32 bytes, internal byte order). -/
def BlockHeader.block_hash (h : BlockHeader) : List Nat :=
  sha256d (serializeHeader h)

/-- Hex display order of a 32-byte hash (`{:x}` on `sha256d::Hash` prints
the bytes reversed). -/
def displayBytes (h : List Nat) : List Nat := h.reverse

/-! ### Genesis construction (`blockdata/constants.rs`) -/

/-- The ASCII bytes of the coinbase message
"Dec. 31th 2013 Japan, The winning numbers of the 2013 Year-End Jumbo
Lottery:23-130916" (86 bytes). -/
def coinbaseMessage : List Nat :=
  [0x44, 0x65, 0x63, 0x2e, 0x20, 0x33, 0x31, 0x74, 0x68, 0x20, 0x32, 0x30,
   0x31, 0x33, 0x20, 0x4a, 0x61, 0x70, 0x61, 0x6e, 0x2c, 0x20, 0x54, 0x68,
   0x65, 0x20, 0x77, 0x69, 0x6e, 0x6e, 0x69, 0x6e, 0x67, 0x20, 0x6e, 0x75,
   0x6d, 0x62, 0x65, 0x72, 0x73, 0x20, 0x6f, 0x66, 0x20, 0x74, 0x68, 0x65,
   0x20, 0x32, 0x30, 0x31, 0x33, 0x20, 0x59, 0x65, 0x61, 0x72, 0x2d, 0x45,
   0x6e, 0x64, 0x20, 0x4a, 0x75, 0x6d, 0x62, 0x6f, 0x20, 0x4c, 0x6f, 0x74,
   0x74, 0x65, 0x72, 0x79, 0x3a, 0x32, 0x33, 0x2d, 0x31, 0x33, 0x30, 0x39,
   0x31, 0x36]

/-- The 65 bytes of the genesis output public key, from the hex literal
`040184710f...7b03a9` in `bitcoin_genesis_tx`. -/
def genesisPubkey : List Nat :=
  [0x04, 0x01, 0x84, 0x71, 0x0f, 0xa6, 0x89, 0xad, 0x50, 0x23, 0x69, 0x0c,
   0x80, 0xf3, 0xa4, 0x9c, 0x8f, 0x13, 0xf8, 0xd4, 0x5b, 0x8c, 0x85, 0x7f,
   0xbc, 0xbc, 0x8b, 0xc4, 0xa8, 0xe4, 0xd3, 0xeb, 0x4b, 0x10, 0xf4, 0xd4,
   0x60, 0x4f, 0xa0, 0x8d, 0xce, 0x60, 0x1a, 0xaf, 0x0f, 0x47, 0x02, 0x16,
   0xfe, 0x1b, 0x51, 0x85, 0x0b, 0x4a, 0xcf, 0x21, 0xb1, 0x79, 0xc4, 0x50,
   0x70, 0xac, 0x7b, 0x03, 0xa9]

/-- `bitcoin_genesis_tx()`: the coinbase (and only) transaction of the
genesis block. -/
def bitcoin_genesis_tx : Transaction :=
  let in_script :=
    (((Builder.mkNew.push_scriptint 486604799).push_scriptint 4).push_slice
      coinbaseMessage).into_script
  let out_script :=
    ((Builder.mkNew.push_slice genesisPubkey).push_opcode
      OP_CHECKSIG).into_script
  { version := 1
    lock_time := 0
    input := [{ previous_output := OutPoint.null
                script_sig := in_script
                sequence := MAX_SEQUENCE
                witness := [] }]
    output := [{ value := 50 * COIN_VALUE
                 script_pubkey := out_script }] }

/-- `genesis_block(network)`: the genesis block of each network, with the
merkle root taken from the single coinbase transaction's txid and
`Default::default()` (the zero hash) as previous block hash. -/
def genesis_block (network : Network) : Block :=
  let txdata := [bitcoin_genesis_tx]
  let merkle_root := Transaction.txid (txdata.headD bitcoin_genesis_tx)
  match network with
  | Network.Monacoin =>
      { header := { version := 1
                    prev_blockhash := List.replicate 32 0
                    merkle_root := merkle_root
                    time := 1388479472
                    bits := 0x1e0ffff0
                    nonce := 1234534 }
        txdata := txdata }
  | Network.MonacoinTestnet =>
      { header := { version := 1
                    prev_blockhash := List.replicate 32 0
                    merkle_root := merkle_root
                    time := 1488924140
                    bits := 0x1e0ffff0
                    nonce := 2122860 }
        txdata := txdata }
  | Network.MonacoinRegtest =>
      { header := { version := 1
                    prev_blockhash := List.replicate 32 0
                    merkle_root := merkle_root
                    time := 1296688602
                    bits := 0x207fffff
                    nonce := 1 }
        txdata := txdata }

/-- The hard-coded Monacoin genesis hash
`ff9f1c0116d19de7c9963845e129f9ed1bfc0b376eb54fd7afa42e0d418c8bb6` (display
order), from the source's test module. -/
def genesisHashMonacoin : List Nat :=
  [0xff, 0x9f, 0x1c, 0x01, 0x16, 0xd1, 0x9d, 0xe7, 0xc9, 0x96, 0x38, 0x45,
   0xe1, 0x29, 0xf9, 0xed, 0x1b, 0xfc, 0x0b, 0x37, 0x6e, 0xb5, 0x4f, 0xd7,
   0xaf, 0xa4, 0x2e, 0x0d, 0x41, 0x8c, 0x8b, 0xb6]

/-- The hard-coded MonacoinTestnet genesis hash
`a2b106ceba3be0c6d097b2a6a6aacf9d638ba8258ae478158f449c321061e0b2` (display
order), from the source's test module. -/
def genesisHashTestnet : List Nat :=
  [0xa2, 0xb1, 0x06, 0xce, 0xba, 0x3b, 0xe0, 0xc6, 0xd0, 0x97, 0xb2, 0xa6,
   0xa6, 0xaa, 0xcf, 0x9d, 0x63, 0x8b, 0xa8, 0x25, 0x8a, 0xe4, 0x78, 0x15,
   0x8f, 0x44, 0x9c, 0x32, 0x10, 0x61, 0xe0, 0xb2]

/-- The fixed MonacoinRegtest genesis hash
`7543a69d7c2fcdb29a5ebec2fc064c074a35253b6f3072c8a749473aa590a29c` (display
order; the regtest literal is not in the provided sources, so this is the
value determined by the regtest header constants). -/
def genesisHashRegtest : List Nat :=
  [0x75, 0x43, 0xa6, 0x9d, 0x7c, 0x2f, 0xcd, 0xb2, 0x9a, 0x5e, 0xbe, 0xc2,
   0xfc, 0x06, 0x4c, 0x07, 0x4a, 0x35, 0x25, 0x3b, 0x6f, 0x30, 0x72, 0xc8,
   0xa7, 0x49, 0x47, 0x3a, 0xa5, 0x90, 0xa2, 0x9c]

/-- The per-network hard-coded genesis hash (display order). -/
def expectedGenesisHash : Network → List Nat
  | Network.Monacoin => genesisHashMonacoin
  | Network.MonacoinTestnet => genesisHashTestnet
  | Network.MonacoinRegtest => genesisHashRegtest

/-- The genesis coinbase txid
`35e405a8a46f4dbc1941727aaf338939323c3b955232d0317f8731fe07ac4ba6` (display
order), from the source's test module. -/
def genesisTxidDisplay : List Nat :=
  [0x35, 0xe4, 0x05, 0xa8, 0xa4, 0x6f, 0x4d, 0xbc, 0x19, 0x41, 0x72, 0x7a,
   0xaf, 0x33, 0x89, 0x39, 0x32, 0x3c, 0x3b, 0x95, 0x52, 0x32, 0xd0, 0x31,
   0x7f, 0x87, 0x31, 0xfe, 0x07, 0xac, 0x4b, 0xa6]

set_option maxRecDepth 100000

/-! ### Development checks against the source's test module -/

/-- The genesis coinbase txid computed through the script builder, the
legacy serializer and double SHA-256 reproduces the literal
`35e405a8...07ac4ba6` asserted by the source's test module, validating the
spec-modelled collaborators against the repository's own test data. -/
theorem genesis_txid_matches_test_literal :
    displayBytes (Transaction.txid bitcoin_genesis_tx) = genesisTxidDisplay := by
  decide

/-! ### Claim theorems -/

/-- C1: For every supported network, the compact-bits field
`genesis_block(network).header.bits`, decoded by the compact
exponent/mantissa rule, yields a 256-bit target less than or equal to
`Params::new(network).pow_limit`. -/
theorem genesis_bits_decode_le_pow_limit :
    ∀ n : Network,
      compactDecode (genesis_block n).header.bits ≤ (Params.new n).pow_limit := by
  intro n
  cases n <;> decide

/-- C2: For every supported network, applying the 256-bit double-hash
block-hash primitive to the header of `genesis_block(network)` reproduces
that network's hard-coded genesis hash literal (`ff9f1c01...418c8bb6` for
Monacoin, `a2b106ce...1061e0b2` for MonacoinTestnet, and the fixed
`7543a69d...a590a29c` for MonacoinRegtest). -/
theorem genesis_block_hash_matches_literal :
    ∀ n : Network,
      displayBytes ((genesis_block n).header.block_hash) =
        expectedGenesisHash n := by
  intro n
  cases n <;> decide

/-- C3 counterexample: on Monacoin, `max_target` (0xFFFF shifted left by
208 bits) is not equal to `Params::new(Network::Monacoin).pow_limit`
(2^236 - 1), refuting the claim that the two interfaces expose the same
value. -/
theorem max_target_ne_pow_limit_monacoin :
    max_target Network.Monacoin ≠ (Params.new Network.Monacoin).pow_limit := by
  decide

/-- C3 amended: for every supported network, `max_target(network)` is
strictly less than `Params::new(network).pow_limit` — the two interfaces
expose different values, with `max_target` the smaller (harder) one. -/
theorem max_target_lt_pow_limit :
    ∀ n : Network, max_target n < (Params.new n).pow_limit := by
  intro n
  cases n <;> decide

/-- C4: The genesis coinbase transaction has exactly one input, whose
previous output is the null outpoint and whose sequence is `MAX_SEQUENCE`
(0xFFFFFFFF), and exactly one output, whose value is `50 * COIN_VALUE`. -/
theorem genesis_tx_coinbase_shape :
    bitcoin_genesis_tx.input.map
        (fun i => (i.previous_output, i.sequence)) =
      [(OutPoint.null, MAX_SEQUENCE)] ∧
    bitcoin_genesis_tx.output.map TxOut.value = [50 * COIN_VALUE] := by
  constructor <;> decide

/-- C5: For every supported network, `genesis_block(network)` carries
exactly the one coinbase transaction, and its header's merkle root is that
single transaction's double-hash transaction identifier. -/
theorem genesis_block_single_tx_merkle_root :
    ∀ n : Network,
      (genesis_block n).txdata = [bitcoin_genesis_tx] ∧
      (genesis_block n).header.merkle_root =
        Transaction.txid ((genesis_block n).txdata.headD bitcoin_genesis_tx) := by
  intro n
  cases n <;> exact ⟨rfl, rfl⟩

/-- C6: `Params::new` is total and pure over the `Network` enumeration (it
is a total Lean function by construction, matching exhaustively on the
three variants), and for every network `n`, `Params::new(n).network = n`. -/
theorem params_new_network_roundtrip :
    ∀ n : Network, (Params.new n).network = n := by
  intro n
  cases n <;> rfl

/-- C7: For every `Params` value `p`,
`p.difficulty_adjustment_interval()` equals
`p.pow_target_timespan / p.pow_target_spacing` with truncating integer
division and no other terms. -/
theorem difficulty_adjustment_interval_eq_div :
    ∀ p : Params,
      p.difficulty_adjustment_interval =
        p.pow_target_timespan / p.pow_target_spacing :=
  fun _ => rfl

/-- C8: `max_target` ignores its network argument — any two networks give
the same value — and the common value is 0xFFFF shifted left by 208
bits. -/
theorem max_target_network_independent :
    ∀ n1 n2 : Network,
      max_target n1 = max_target n2 ∧ max_target n1 = 0xFFFF * 2 ^ 208 := by
  intro n1 n2
  cases n1 <;> cases n2 <;> exact ⟨rfl, by decide⟩

/-- C9: Every network's `Params::new(network).difficulty_adjustment_interval()`
is 1056 (= 95040 / 90), which differs from the module-level constant
`DIFFCHANGE_INTERVAL` = 2016. -/
theorem params_interval_is_1056_not_diffchange :
    ∀ n : Network,
      (Params.new n).difficulty_adjustment_interval = 1056 ∧
      (Params.new n).difficulty_adjustment_interval ≠ DIFFCHANGE_INTERVAL := by
  intro n
  cases n <;> exact ⟨rfl, by decide⟩

/-- C10: `max_money` ignores its network argument and returns exactly
105_120_000 * COIN_VALUE = 10_512_000_000_000_000 base units, a product
that fits in a `u64` without overflow. -/
theorem max_money_value_and_no_overflow :
    ∀ n : Network,
      max_money n = 10512000000000000 ∧ max_money n < 2 ^ 64 := by
  intro n
  cases n <;> exact ⟨by decide, by decide⟩

end RustBitcoin
